import Mathlib

/-!
Shallow embedding of `src/src-tauri/src/main.rs` (QuickView).

The program spawns a sidecar process `trame` and consumes its event
stream in a background task.  For each `Stdout` line it logs the line,
reacts to the sentinel substring `tauri-server-port=` by issuing a
navigation instruction to the main window, and reacts to the sentinel
substring `tauri-client-ready` by sleeping two seconds, closing the
splash window and showing the main window.  `Stderr`, `Error` and
`Terminated` events are only logged.

We model the observable behaviour of one execution as the list of
`Action`s the loop issues, in order.  A `tokens[1]` access that would
be out of range in Rust is modelled as `none` (a panic aborting the
task).
-/

namespace QuickView

/-- Boolean test that `p` is a prefix of `l`, as a plain recursive
function so the kernel can evaluate it and we can reason by induction. -/
def prefOf : List Char → List Char → Bool
  | [], _ => true
  | _ :: _, [] => false
  | a :: as, b :: bs => a == b && prefOf as bs

/-- Rust `str::contains(pat)`: `pat` occurs as a contiguous substring. -/
def containsSub (pat : List Char) : List Char → Bool
  | [] => prefOf pat []
  | c :: cs => prefOf pat (c :: cs) || containsSub pat cs

/-- Rust `line.contains(pat)` on `String`s. -/
def containsStr (s pat : String) : Bool :=
  containsSub pat.toList s.toList

/-- Rust `line.split("=")` on the character list: splits at every `'='`,
producing `n + 1` pieces for `n` separators (empty pieces included). -/
def splitEq : List Char → List (List Char)
  | [] => [[]]
  | c :: cs =>
    if c = '=' then [] :: splitEq cs
    else
      match splitEq cs with
      | [] => [[c]]
      | t :: ts => (c :: t) :: ts

/-- Rust `line.split("=").collect::<Vec<_>>()` on `String`s. -/
def splitOnEq (s : String) : List String :=
  (splitEq s.toList).map String.mk

/-- Rust `str::trim()`: strip whitespace from both ends. -/
def rustTrim (s : String) : String :=
  String.mk ((((s.toList.dropWhile Char.isWhitespace).reverse).dropWhile
    Char.isWhitespace).reverse)

/-- One observable instruction issued by the supervising loop. -/
inductive Action where
  | navigate (query : String)
  | sleep (secs : Nat)
  | closeSplash
  | showMain
  | logStdout (line : String)
  | logStderr (line : String)
  | logError (msg : String)
  | logExit (code : Option Int)
  deriving DecidableEq, Repr

/-- One event delivered on the channel of the sidecar
(`tauri::api::process::CommandEvent`). -/
inductive CommandEvent where
  | stdout (line : String)
  | stderr (line : String)
  | error (msg : String)
  | terminated (code : Option Int)
  | other
  deriving DecidableEq, Repr

/-- The WebSocket URL built from the announced port:
`ws://localhost:<port>/ws`. -/
def wsUrl (port : String) : String :=
  "ws://localhost:" ++ port ++ "/ws"

/-- The query string passed to `window.location.replace`:
the WebSocket URL appended as the `sessionURL` query parameter. -/
def sessionQuery (port : String) : String :=
  "?sessionURL=" ++ wsUrl port

/-- The `tauri-server-port=` branch of the stdout handler:
`let tokens: Vec<&str> = line.split("=").collect();
 let port_token = tokens[1].to_string();
 let port = port_token.trim();
 let _ = main_window.eval(&format!(... sessionURL=ws://localhost:port/ws ...));`
`none` models the panic of an out-of-range `tokens[1]`. -/
def portActs (line : String) : Option (List Action) :=
  if containsStr line "tauri-server-port=" then
    match (splitOnEq line)[1]? with
    | none => none
    | some portToken => some [Action.navigate (sessionQuery (rustTrim portToken))]
  else some []

/-- The `tauri-client-ready` branch of the stdout handler:
sleep two seconds, close the splash window, show the main window. -/
def readyActs (line : String) : List Action :=
  if containsStr line "tauri-client-ready" then
    [Action.sleep 2, Action.closeSplash, Action.showMain]
  else []

/-- The whole `CommandEvent::Stdout(line)` arm: log the line, then the
port branch, then the ready branch. -/
def processStdout (line : String) : Option (List Action) :=
  match portActs line with
  | none => none
  | some pa => some (Action.logStdout line :: (pa ++ readyActs line))

/-- One iteration of the `while let Some(event) = rx.recv().await` match. -/
def processEvent : CommandEvent → Option (List Action)
  | CommandEvent.stdout line => processStdout line
  | CommandEvent.stderr line => some [Action.logStderr line]
  | CommandEvent.error msg => some [Action.logError msg]
  | CommandEvent.terminated code => some [Action.logExit code]
  | CommandEvent.other => some []

/-- The consuming loop over a finite delivered event stream.  A panic
(`none`) aborts the task: remaining events are not processed. -/
def runLoop : List CommandEvent → Option (List Action)
  | [] => some []
  | e :: es =>
    match processEvent e with
    | none => none
    | some acts => (runLoop es).map (fun rest => acts ++ rest)

/-- The actions of a single event (total form; the panic case, which we
prove unreachable, contributes nothing). -/
def actsOf (e : CommandEvent) : List Action :=
  (processEvent e).getD []

/-- Total form of the loop. -/
def runActs (evs : List CommandEvent) : List Action :=
  (evs.map actsOf).flatten

/-- Result of spawning the sidecar: either the event stream the child
delivers, or a spawn failure (`.expect("Failed to spawn server")`). -/
inductive SpawnResult where
  | ok (events : List CommandEvent)
  | err
  deriving DecidableEq, Repr

/-- The application run: a spawn failure panics with its diagnostic
before the consuming task starts; otherwise the loop runs. -/
def runApp : SpawnResult → Except String (List Action)
  | SpawnResult.err => Except.error "Failed to spawn server"
  | SpawnResult.ok evs =>
    match runLoop evs with
    | none => Except.error "index out of bounds"
    | some acts => Except.ok acts

/-- The actions actually issued in an execution. -/
def issuedActions (r : SpawnResult) : List Action :=
  match runApp r with
  | Except.ok acts => acts
  | Except.error _ => []

/-- The sidecar invocation (`Command::new_sidecar("trame")`, its `args`
and its `envs`), as built in `main`. -/
structure SidecarCommand where
  name : String
  args : List String
  env : List (String × String)
  deriving DecidableEq, Repr

/-- The concrete command `main` spawns. -/
def trameCommand : SidecarCommand :=
  ⟨"trame", ["--server", "--port", "0", "--timeout", "10"],
    [("PYTHONUNBUFFERED", "1")]⟩

/-- Predicates for counting instructions. -/
def isCloseSplash : Action → Bool
  | Action.closeSplash => true
  | _ => false

def isShowMain : Action → Bool
  | Action.showMain => true
  | _ => false

def isNavigate : Action → Bool
  | Action.navigate _ => true
  | _ => false

/-- The port token the code uses for navigation: entry `1` of the split
of the whole line on the delimiter, trimmed. -/
def extractPort (line : String) : String :=
  rustTrim (((splitOnEq line)[1]?).getD "")

/-- An event that is a stdout line containing the ready sentinel. -/
def isReadyEvent : CommandEvent → Bool
  | CommandEvent.stdout line => containsStr line "tauri-client-ready"
  | _ => false

/-- An event that is a stdout line containing the port sentinel. -/
def isPortEvent : CommandEvent → Bool
  | CommandEvent.stdout line => containsStr line "tauri-server-port="
  | _ => false

/-! ### Helper lemmas -/

theorem mem_of_prefOf {p l : List Char} {c : Char} (h : prefOf p l = true)
    (hc : c ∈ p) : c ∈ l := by
  induction p generalizing l with
  | nil => cases hc
  | cons a as ih =>
    cases l with
    | nil => simp [prefOf] at h
    | cons b bs =>
      simp only [prefOf, Bool.and_eq_true, beq_iff_eq] at h
      obtain ⟨rfl, hrest⟩ := h
      rcases List.mem_cons.mp hc with rfl | hmem
      · exact List.mem_cons_self _ _
      · exact List.mem_cons_of_mem _ (ih hrest hmem)

theorem mem_of_containsSub {p l : List Char} {c : Char}
    (h : containsSub p l = true) (hc : c ∈ p) : c ∈ l := by
  induction l with
  | nil =>
    cases p with
    | nil => cases hc
    | cons a as => simp [containsSub, prefOf] at h
  | cons b bs ih =>
    simp only [containsSub, Bool.or_eq_true] at h
    rcases h with h | h
    · exact mem_of_prefOf h hc
    · exact List.mem_cons_of_mem _ (ih h)

theorem splitEq_ne_nil (l : List Char) : splitEq l ≠ [] := by
  cases l with
  | nil => simp [splitEq]
  | cons c cs =>
    simp only [splitEq]
    split
    · simp
    · split <;> simp

theorem two_le_length_splitEq {l : List Char} (h : '=' ∈ l) :
    2 ≤ (splitEq l).length := by
  induction l with
  | nil => cases h
  | cons c cs ih =>
    simp only [splitEq]
    by_cases hc : c = '='
    · rw [if_pos hc]
      have hne := splitEq_ne_nil cs
      have hpos : 0 < (splitEq cs).length := List.length_pos.mpr hne
      simp only [List.length_cons]
      omega
    · rw [if_neg hc]
      have hcs : '=' ∈ cs := by
        rcases List.mem_cons.mp h with heq | hmem
        · exact absurd heq.symm hc
        · exact hmem
      have h2 := ih hcs
      cases hsp : splitEq cs with
      | nil => exact absurd hsp (splitEq_ne_nil cs)
      | cons t ts =>
        rw [hsp] at h2
        simp only [List.length_cons] at h2 ⊢
        omega

theorem portActs_of_contains {line : String}
    (h : containsStr line "tauri-server-port=" = true) :
    portActs line = some [Action.navigate (sessionQuery (extractPort line))] := by
  have hmem : '=' ∈ line.toList :=
    mem_of_containsSub h (by decide)
  have hlen : 1 < (splitOnEq line).length := by
    have := two_le_length_splitEq hmem
    simpa [splitOnEq] using this
  obtain ⟨tok, htok⟩ : ∃ tok, (splitOnEq line)[1]? = some tok :=
    ⟨(splitOnEq line)[1], List.getElem?_eq_getElem hlen⟩
  simp [portActs, h, htok, extractPort]

theorem portActs_of_not_contains {line : String}
    (h : containsStr line "tauri-server-port=" = false) :
    portActs line = some [] := by
  simp [portActs, h]

theorem processStdout_of_port {line : String}
    (h : containsStr line "tauri-server-port=" = true) :
    processStdout line = some (Action.logStdout line ::
      Action.navigate (sessionQuery (extractPort line)) :: readyActs line) := by
  rw [processStdout, portActs_of_contains h]
  rfl

theorem processStdout_of_not_port {line : String}
    (h : containsStr line "tauri-server-port=" = false) :
    processStdout line = some (Action.logStdout line :: readyActs line) := by
  rw [processStdout, portActs_of_not_contains h]
  rfl

theorem processStdout_isSome (line : String) :
    (processStdout line).isSome = true := by
  cases h : containsStr line "tauri-server-port=" with
  | false => rw [processStdout_of_not_port h]; rfl
  | true => rw [processStdout_of_port h]; rfl

theorem processEvent_isSome (e : CommandEvent) :
    (processEvent e).isSome = true := by
  cases e with
  | stdout line => exact processStdout_isSome line
  | stderr line => rfl
  | error msg => rfl
  | terminated code => rfl
  | other => rfl

theorem runLoop_eq_runActs (evs : List CommandEvent) :
    runLoop evs = some (runActs evs) := by
  induction evs with
  | nil => rfl
  | cons e es ih =>
    obtain ⟨a, ha⟩ := Option.isSome_iff_exists.mp (processEvent_isSome e)
    simp [runLoop, ha, ih, runActs, actsOf]

theorem runActs_cons (e : CommandEvent) (es : List CommandEvent) :
    runActs (e :: es) = actsOf e ++ runActs es := by
  simp [runActs]

theorem runActs_append (xs ys : List CommandEvent) :
    runActs (xs ++ ys) = runActs xs ++ runActs ys := by
  simp [runActs]

theorem countClose_readyActs (line : String) :
    (readyActs line).countP isCloseSplash =
      if containsStr line "tauri-client-ready" = true then 1 else 0 := by
  cases h : containsStr line "tauri-client-ready" <;> simp [readyActs, h] <;> rfl

theorem countShow_readyActs (line : String) :
    (readyActs line).countP isShowMain =
      if containsStr line "tauri-client-ready" = true then 1 else 0 := by
  cases h : containsStr line "tauri-client-ready" <;> simp [readyActs, h] <;> rfl

theorem countClose_actsOf (e : CommandEvent) :
    (actsOf e).countP isCloseSplash = if isReadyEvent e then 1 else 0 := by
  cases e with
  | stdout line =>
    simp only [actsOf, processEvent]
    cases hp : containsStr line "tauri-server-port=" with
    | true =>
      rw [processStdout_of_port hp]
      simp [List.countP_cons, isCloseSplash, isReadyEvent, countClose_readyActs line]
    | false =>
      rw [processStdout_of_not_port hp]
      simp [List.countP_cons, isCloseSplash, isReadyEvent, countClose_readyActs line]
  | stderr line => rfl
  | error msg => rfl
  | terminated code => rfl
  | other => rfl

theorem countShow_actsOf (e : CommandEvent) :
    (actsOf e).countP isShowMain = if isReadyEvent e then 1 else 0 := by
  cases e with
  | stdout line =>
    simp only [actsOf, processEvent]
    cases hp : containsStr line "tauri-server-port=" with
    | true =>
      rw [processStdout_of_port hp]
      simp [List.countP_cons, isShowMain, isReadyEvent, countShow_readyActs line]
    | false =>
      rw [processStdout_of_not_port hp]
      simp [List.countP_cons, isShowMain, isReadyEvent, countShow_readyActs line]
  | stderr line => rfl
  | error msg => rfl
  | terminated code => rfl
  | other => rfl

theorem countClose_runActs (evs : List CommandEvent) :
    (runActs evs).countP isCloseSplash = evs.countP isReadyEvent := by
  induction evs with
  | nil => rfl
  | cons e es ih =>
    rw [runActs_cons, List.countP_append, ih, List.countP_cons, countClose_actsOf]
    cases isReadyEvent e <;> simp <;> omega

theorem countShow_runActs (evs : List CommandEvent) :
    (runActs evs).countP isShowMain = evs.countP isReadyEvent := by
  induction evs with
  | nil => rfl
  | cons e es ih =>
    rw [runActs_cons, List.countP_append, ih, List.countP_cons, countShow_actsOf]
    cases isReadyEvent e <;> simp <;> omega

theorem actsOf_ready_decomp {line : String}
    (h : containsStr line "tauri-client-ready" = true) :
    ∃ pa, actsOf (CommandEvent.stdout line) =
      Action.logStdout line ::
        (pa ++ [Action.sleep 2, Action.closeSplash, Action.showMain]) := by
  cases hp : containsStr line "tauri-server-port=" with
  | true =>
    refine ⟨[Action.navigate (sessionQuery (extractPort line))], ?_⟩
    simp [actsOf, processEvent, processStdout_of_port hp, readyActs, h]
  | false =>
    refine ⟨[], ?_⟩
    simp [actsOf, processEvent, processStdout_of_not_port hp, readyActs, h]

/-! ### Claim theorems -/

/-- C1 (counterexample): the close-splash and show-main transitions are
NOT limited to at most once per stream: when the sentinel line
`tauri-client-ready` recurs on two stdout lines, the loop issues the
close-splash and show-main instructions twice. -/
theorem close_splash_twice_for_repeated_ready :
    runLoop [CommandEvent.stdout "tauri-client-ready",
        CommandEvent.stdout "tauri-client-ready"] =
      some [Action.logStdout "tauri-client-ready", Action.sleep 2,
        Action.closeSplash, Action.showMain,
        Action.logStdout "tauri-client-ready", Action.sleep 2,
        Action.closeSplash, Action.showMain] ∧
    ¬ ([Action.logStdout "tauri-client-ready", Action.sleep 2,
        Action.closeSplash, Action.showMain,
        Action.logStdout "tauri-client-ready", Action.sleep 2,
        Action.closeSplash, Action.showMain].countP isCloseSplash ≤ 1) := by
  decide

/-- C1 (amended): each stdout line containing `tauri-client-ready`
yields exactly one close-splash and one show-main instruction, so over
a whole delivered stream each transition occurs exactly once per
sentinel-carrying line (hence at most once only when at most one line
carries the sentinel; the code has no once-guard). -/
theorem window_transitions_once_per_ready_line
    (evs : List CommandEvent) (acts : List Action)
    (h : runLoop evs = some acts) :
    acts.countP isCloseSplash = evs.countP isReadyEvent ∧
    acts.countP isShowMain = evs.countP isReadyEvent := by
  have heq := runLoop_eq_runActs evs
  rw [h] at heq
  obtain rfl := Option.some.inj heq
  exact ⟨countClose_runActs evs, countShow_runActs evs⟩

/-- C1 (witness): on the stream with one ready line and one plain line,
both transition counts equal the number of ready lines, namely one. -/
theorem window_transitions_once_per_ready_line_witness :
    ([Action.logStdout "tauri-client-ready", Action.sleep 2,
        Action.closeSplash, Action.showMain,
        Action.logStdout "hello"].countP isCloseSplash =
      [CommandEvent.stdout "tauri-client-ready",
        CommandEvent.stdout "hello"].countP isReadyEvent) ∧
    ([Action.logStdout "tauri-client-ready", Action.sleep 2,
        Action.closeSplash, Action.showMain,
        Action.logStdout "hello"].countP isShowMain =
      [CommandEvent.stdout "tauri-client-ready",
        CommandEvent.stdout "hello"].countP isReadyEvent) :=
  window_transitions_once_per_ready_line
    [CommandEvent.stdout "tauri-client-ready", CommandEvent.stdout "hello"]
    [Action.logStdout "tauri-client-ready", Action.sleep 2,
      Action.closeSplash, Action.showMain, Action.logStdout "hello"]
    (by decide)

/-- C2 (counterexample): a stdout line lacking the assignment delimiter
does not fail with an out-of-range access: it cannot contain the marker
`tauri-server-port=` (the marker itself contains the delimiter), so the
port branch is skipped and the line is only logged. -/
theorem malformed_port_line_processed_without_panic :
    containsStr "tauri-server-port" "=" = false ∧
    processStdout "tauri-server-port" =
      some [Action.logStdout "tauri-server-port"] ∧
    (processStdout "tauri-server-port").isSome = true := by
  decide

/-- C2 (amended): processing a stdout line never fails with an
out-of-range access: a line entering the port branch necessarily
contains the delimiter, so the split has at least two tokens; every
stdout line is processed to a result. -/
theorem stdout_processing_never_out_of_range (line : String) :
    (processStdout line).isSome = true :=
  processStdout_isSome line

/-- C3: the stdout line `tauri-server-port=4321` yields exactly one
navigation instruction, whose target is the WebSocket URL
`ws://localhost:4321/ws` appended as the `sessionURL` query parameter. -/
theorem port_line_yields_single_navigation :
    processStdout "tauri-server-port=4321" =
      some [Action.logStdout "tauri-server-port=4321",
        Action.navigate (sessionQuery "4321")] ∧
    sessionQuery "4321" = "?sessionURL=ws://localhost:4321/ws" ∧
    ((processStdout "tauri-server-port=4321").getD []).countP isNavigate = 1 := by
  decide

/-- C4: a stdout line containing neither sentinel substring causes no
window-state transition: it is only logged, with no navigation, no
close-splash and no show-main instruction. -/
theorem non_sentinel_line_only_logged (line : String)
    (h1 : containsStr line "tauri-server-port=" = false)
    (h2 : containsStr line "tauri-client-ready" = false) :
    processStdout line = some [Action.logStdout line] := by
  rw [processStdout_of_not_port h1]
  simp [readyActs, h2]

/-- C4 (witness): the plain line `hello` is only logged. -/
theorem non_sentinel_line_only_logged_witness :
    processStdout "hello" = some [Action.logStdout "hello"] :=
  non_sentinel_line_only_logged "hello" (by decide) (by decide)

/-- C5: in a stream where a stdout line containing `tauri-server-port=`
precedes a stdout line containing `tauri-client-ready`, the issued
action sequence has a navigation instruction strictly before a
show-main instruction. -/
theorem navigation_before_reveal
    (as bs cs : List CommandEvent) (l₁ l₂ : String) (acts : List Action)
    (h₁ : containsStr l₁ "tauri-server-port=" = true)
    (h₂ : containsStr l₂ "tauri-client-ready" = true)
    (h : runLoop (as ++ CommandEvent.stdout l₁ :: bs ++
        CommandEvent.stdout l₂ :: cs) = some acts) :
    ∃ q L₁ L₂ L₃,
      acts = L₁ ++ Action.navigate q :: L₂ ++ Action.showMain :: L₃ := by
  have heq := runLoop_eq_runActs
    (as ++ CommandEvent.stdout l₁ :: bs ++ CommandEvent.stdout l₂ :: cs)
  rw [h] at heq
  obtain rfl := Option.some.inj heq
  have e1 : actsOf (CommandEvent.stdout l₁) =
      Action.logStdout l₁ ::
        Action.navigate (sessionQuery (extractPort l₁)) :: readyActs l₁ := by
    simp [actsOf, processEvent, processStdout_of_port h₁]
  obtain ⟨pa, e2⟩ := actsOf_ready_decomp h₂
  refine ⟨sessionQuery (extractPort l₁),
    runActs as ++ [Action.logStdout l₁],
    readyActs l₁ ++ runActs bs ++ Action.logStdout l₂ ::
      (pa ++ [Action.sleep 2, Action.closeSplash]),
    runActs cs, ?_⟩
  rw [runActs_append, runActs_cons, runActs_append, runActs_cons, e1, e2]
  simp

/-- C5 (witness): on the two-line stream port-then-ready, the concrete
action sequence decomposes with the navigation before the show-main. -/
theorem navigation_before_reveal_witness :
    ∃ q L₁ L₂ L₃,
      [Action.logStdout "tauri-server-port=4321",
        Action.navigate "?sessionURL=ws://localhost:4321/ws",
        Action.logStdout "tauri-client-ready", Action.sleep 2,
        Action.closeSplash, Action.showMain] =
        L₁ ++ Action.navigate q :: L₂ ++ Action.showMain :: L₃ :=
  navigation_before_reveal [] [] [] "tauri-server-port=4321"
    "tauri-client-ready"
    [Action.logStdout "tauri-server-port=4321",
      Action.navigate "?sessionURL=ws://localhost:4321/ws",
      Action.logStdout "tauri-client-ready", Action.sleep 2,
      Action.closeSplash, Action.showMain]
    (by decide) (by decide) (by decide)

/-- C6: error and termination events are only logged: each yields a
single log action, never a panic, and the loop keeps processing the
remaining events of the stream. -/
theorem error_termination_only_logged_loop_continues
    (msg : String) (code : Option Int) (es : List CommandEvent) :
    processEvent (CommandEvent.error msg) = some [Action.logError msg] ∧
    processEvent (CommandEvent.terminated code) = some [Action.logExit code] ∧
    runLoop (CommandEvent.error msg :: es) =
      some (Action.logError msg :: runActs es) ∧
    runLoop (CommandEvent.terminated code :: es) =
      some (Action.logExit code :: runActs es) := by
  refine ⟨rfl, rfl, ?_, ?_⟩ <;>
    simp [runLoop, processEvent, runLoop_eq_runActs es]

/-- C7: a stdout line containing `tauri-client-ready` first sleeps the
fixed two-second delay and only then closes the splash window and shows
the main window, in that order; no transition precedes the delay. -/
theorem ready_line_delay_then_close_then_show (line : String)
    (h : containsStr line "tauri-client-ready" = true) :
    ∃ pre, processStdout line =
        some (pre ++ [Action.sleep 2, Action.closeSplash, Action.showMain]) ∧
      pre.countP isCloseSplash = 0 ∧ pre.countP isShowMain = 0 := by
  cases hp : containsStr line "tauri-server-port=" with
  | true =>
    refine ⟨[Action.logStdout line,
      Action.navigate (sessionQuery (extractPort line))], ?_, ?_, ?_⟩
    · rw [processStdout_of_port hp]
      simp [readyActs, h]
    · simp [List.countP_cons, isCloseSplash]
    · simp [List.countP_cons, isShowMain]
  | false =>
    refine ⟨[Action.logStdout line], ?_, ?_, ?_⟩
    · rw [processStdout_of_not_port hp]
      simp [readyActs, h]
    · simp [List.countP_cons, isCloseSplash]
    · simp [List.countP_cons, isShowMain]

/-- C7 (witness): the line `tauri-client-ready` itself. -/
theorem ready_line_delay_then_close_then_show_witness :
    ∃ pre, processStdout "tauri-client-ready" =
        some (pre ++ [Action.sleep 2, Action.closeSplash, Action.showMain]) ∧
      pre.countP isCloseSplash = 0 ∧ pre.countP isShowMain = 0 :=
  ready_line_delay_then_close_then_show "tauri-client-ready" (by decide)

/-- C8: a spawn failure aborts with the diagnostic
`Failed to spawn server` before any window logic runs: no navigation,
close-splash or show-main instruction is issued in that execution. -/
theorem spawn_failure_aborts_no_window_actions :
    runApp SpawnResult.err = Except.error "Failed to spawn server" ∧
    issuedActions SpawnResult.err = [] :=
  ⟨rfl, rfl⟩

/-- C9: the sidecar is invoked with exactly the fixed argument list
`--server --port 0 --timeout 10` and exactly one environment override,
`PYTHONUNBUFFERED=1`, forcing unbuffered output. -/
theorem sidecar_fixed_args_and_env :
    trameCommand.name = "trame" ∧
    trameCommand.args = ["--server", "--port", "0", "--timeout", "10"] ∧
    trameCommand.env = [("PYTHONUNBUFFERED", "1")] ∧
    trameCommand.env.length = 1 :=
  ⟨rfl, rfl, rfl, rfl⟩

/-- C10: the port token used for navigation is entry 1 of the split of
the whole line on `=`, trimmed; so when an `=` occurs before the marker
the navigated port is the text between the first and second `=` of the
line, not the number following the marker. -/
theorem port_token_from_first_delimiter (line : String)
    (h : containsStr line "tauri-server-port=" = true) :
    processStdout line = some (Action.logStdout line ::
      Action.navigate (sessionQuery (extractPort line)) :: readyActs line) ∧
    extractPort line = rustTrim (((splitOnEq line)[1]?).getD "") :=
  ⟨processStdout_of_port h, rfl⟩

/-- C10 (witness): on `x=y tauri-server-port=4321` the navigated port
is `y tauri-server-port` (between the first and second `=`), not
`4321`. -/
theorem port_token_from_first_delimiter_witness :
    processStdout "x=y tauri-server-port=4321" =
      some [Action.logStdout "x=y tauri-server-port=4321",
        Action.navigate "?sessionURL=ws://localhost:y tauri-server-port/ws"] := by
  rw [(port_token_from_first_delimiter "x=y tauri-server-port=4321"
    (by decide)).1]
  decide

end QuickView
